import Mathlib

/-
Verification of the Ollama-Fix adapter (src/ollamafix.py).

The repository patches two streaming request functions onto a third-party
LLM client class: `_create_stream_patch` (synchronous, lines 16-74) and
`_acreate_stream_patch` (asynchronous, lines 77-133), and registers a
configuration class through the `factory_allowed_llms` hook (lines 160-164).

The embedding below models Python dictionaries as insertion-ordered
association lists over a JSON-like value type, and models the network as an
explicit `Response` argument: the request-building prefix of each function is
a pure function producing either an error or the JSON request body, and the
response-handling suffix is a pure function of the response.
-/

namespace OllamaFix

/-- JSON-like values, as they appear in the request payload, the keyword
arguments and the JSON bodies exchanged with the server. -/
inductive Value where
  | null : Value
  | str : String → Value
  | num : Int → Value
  | list : List Value → Value
  | obj : List (String × Value) → Value

/-- Python dictionaries with string keys, modelled as insertion-ordered
association lists (first binding of a key is the authoritative one; the
operations below keep keys unique the way Python dicts do). -/
abbrev Dict := List (String × Value)

/-- Python `d.get(key)` / `key in d`: the first binding of `key`. -/
def Dict.find : Dict → String → Option Value
  | [], _ => none
  | (k, v) :: rest, key => if k = key then some v else Dict.find rest key

/-- Python `d[key] = val`: replace the value in place when the key exists,
append the binding at the end otherwise. -/
def Dict.insert : Dict → String → Value → Dict
  | [], key, val => [(key, val)]
  | (k, v) :: rest, key, val =>
    if k = key then (k, val) :: rest else (k, v) :: Dict.insert rest key val

/-- Python `{**a, **b}`: fold the bindings of `b` into `a`, later bindings
winning on key conflicts. -/
def Dict.merge (a b : Dict) : Dict :=
  b.foldl (fun acc kv => Dict.insert acc kv.1 kv.2) a

/-- Removal of every binding of a key. Used only to state, in the spec's own
words, the claimed exclusion of the `model` override from the options merge. -/
def Dict.erase : Dict → String → Dict
  | [], _ => []
  | (k, v) :: rest, key =>
    if k = key then Dict.erase rest key else (k, v) :: Dict.erase rest key

/-- Python truthiness of a JSON-like value (`if payload.get("messages"):`). -/
def Value.truthy : Value → Bool
  | .null => false
  | .str s => !(s == "")
  | .num n => !(n == 0)
  | .list vs => !vs.isEmpty
  | .obj kvs => !kvs.isEmpty

/-- Python `str()` rendering of an optional error-detail value, as used by the
f-string on lines 70-73.  `None` (absent field or JSON null) prints as
`"None"`; strings print verbatim; numbers print decimally.  Container values
are rendered abstractly: no claim exercises a non-scalar error detail. -/
def Value.pystr : Value → String
  | .null => "None"
  | .str s => s
  | .num n => toString n
  | .list _ => "<list>"
  | .obj _ => "<dict>"

/-- Rendering of `response.json().get("error")`, which is `None` when the
`error` field is absent. -/
def pyShow : Option Value → String
  | none => "None"
  | some v => v.pystr

/-- Character-list test of whether `pat` occurs at the start of `s`. -/
def listStartsWith : List Char → List Char → Bool
  | [], _ => true
  | _ :: _, [] => false
  | p :: ps, c :: cs => p == c && listStartsWith ps cs

/-- Character-list test of whether `pat` occurs anywhere inside `s`. -/
def listContains (pat : List Char) : List Char → Bool
  | [] => pat.isEmpty
  | c :: rest => listStartsWith pat (c :: rest) || listContains pat rest

/-- Boolean substring test on strings. -/
def strContains (s pat : String) : Bool :=
  listContains pat.toList s.toList

/-- The errors the two stream functions can raise.  In the Python source the
stop conflict and the generic request failure are both `ValueError` and the
404 case is `OllamaEndpointNotFoundError`; the spec names them
`ConflictingStopSequenceError`, `RequestFailedError` and
`EndpointNotFoundError` respectively.  `attributeError` models a Python
`AttributeError` raised by evaluating an attribute access on an object that
lacks the attribute. -/
inductive Err where
  | conflictingStopSequence : String → Err
  | endpointNotFound : String → Err
  | requestFailed : String → Err
  | attributeError : String → Err

/-- Adapter state visible to the patched methods: the configured default stop
list (`self.stop`), the model name (`self.model`), the default options map and
the timeout.  The composite `_default_params` mapping lives on the external
client class; per the spec it consists of the model identifier plus the
default options map (see `Ollama.default_params`). -/
structure Ollama where
  stop : Option (List String)
  model : String
  default_options : Dict
  timeout : Nat

/-- Modelled from the spec: `self._default_params` belongs to the external
client class being patched, not to this repository.  The spec describes the
adapter defaults as the model identifier together with the default generation
options map (for example `{model: "llama2", options: {temperature: 0.8}}`),
which is exactly the shape built here. -/
def Ollama.default_params (self : Ollama) : Dict :=
  [("model", Value.str self.model), ("options", Value.obj self.default_options)]

/-- The HTTP response, as the adapter observes it: the status code, the parsed
JSON body consulted on error statuses, and the UTF-8 decoded line sequence the
transport delivers on success. -/
structure Response where
  status : Nat
  jsonBody : Dict
  bodyLines : List String

/-- Message of the `ValueError` raised when stop lists conflict (lines 24 and 85). -/
def conflictMsg : String :=
  "`stop` found in both the input and default params."

/-- Message of the synchronous 404 error (lines 63-67): it names the model and
suggests pulling it. -/
def sync404Msg (model : String) : String :=
  "Ollama call failed with status code 404. " ++
  "Maybe your model is not found " ++
  "and you should pull the model with `ollama pull " ++ model ++ "`."

/-- Message of the asynchronous 404 error (lines 123-125): the status code only. -/
def async404Msg : String :=
  "Ollama call failed with status code 404."

/-- Message of the generic request failure (lines 70-73 and 128-131). -/
def failMsg (status : Nat) (detail : String) : String :=
  "Ollama call failed with status code " ++ toString status ++
  ". Details: " ++ detail

/-- Effective stop list of the synchronous path (lines 23-26): the adapter
default wins when set, otherwise the per-call argument, otherwise nothing. -/
def effStopSync (selfStop stop : Option (List String)) : Option (List String) :=
  if selfStop.isSome then selfStop else stop

/-- Effective stop list of the asynchronous path (lines 84-89): the adapter
default wins when set, otherwise the per-call argument, otherwise the empty
list. -/
def effStopAsync (selfStop stop : Option (List String)) : Option (List String) :=
  if selfStop.isSome then selfStop
  else if stop.isSome then stop else some []

/-- The JSON value sent for a stop list: Python `None` becomes JSON null, a
list of strings becomes a JSON array. -/
def optStopValue : Option (List String) → Value
  | none => Value.null
  | some xs => Value.list (xs.map Value.str)

/-- Request body of the synchronous path after the conflict check passes
(lines 25-49): resolve the effective stop list, take the adapter defaults,
replace `model` and `options` from the keyword overrides when present,
otherwise build `options` as `{**default_options, "stop": stop, **kwargs}`,
then assemble the payload by the messages-truthiness rule. -/
def assembleSync (self : Ollama) (payload : Dict) (stop0 : Option (List String))
    (kwargs : Dict) : Dict :=
  let stop := effStopSync self.stop stop0
  let params := self.default_params
  let params :=
    match Dict.find kwargs "model" with
    | some v => Dict.insert params "model" v
    | none => params
  let params :=
    match Dict.find kwargs "options" with
    | some v => Dict.insert params "options" v
    | none =>
      Dict.insert params "options"
        (Value.obj (Dict.merge (Dict.insert self.default_options "stop" (optStopValue stop))
          kwargs))
  if ((Dict.find payload "messages").getD Value.null).truthy then
    Dict.merge [("messages", (Dict.find payload "messages").getD (Value.list []))] params
  else
    Dict.merge [("prompt", (Dict.find payload "prompt").getD Value.null),
                ("images", (Dict.find payload "images").getD (Value.list []))] params

/-- Request body of the asynchronous path after the conflict check passes
(lines 86-112): identical to the synchronous assembly except that a wholly
missing stop list is replaced by the empty list. -/
def assembleAsync (self : Ollama) (payload : Dict) (stop0 : Option (List String))
    (kwargs : Dict) : Dict :=
  let stop := effStopAsync self.stop stop0
  let params := self.default_params
  let params :=
    match Dict.find kwargs "model" with
    | some v => Dict.insert params "model" v
    | none => params
  let params :=
    match Dict.find kwargs "options" with
    | some v => Dict.insert params "options" v
    | none =>
      Dict.insert params "options"
        (Value.obj (Dict.merge (Dict.insert self.default_options "stop" (optStopValue stop))
          kwargs))
  if ((Dict.find payload "messages").getD Value.null).truthy then
    Dict.merge [("messages", (Dict.find payload "messages").getD (Value.list []))] params
  else
    Dict.merge [("prompt", (Dict.find payload "prompt").getD Value.null),
                ("images", (Dict.find payload "images").getD (Value.list []))] params

/-- Request-building prefix of the synchronous function (lines 23-49): the
stop-conflict guard, then the body assembly. -/
def buildRequestSync (self : Ollama) (payload : Dict) (stop : Option (List String))
    (kwargs : Dict) : Except Err Dict :=
  if self.stop.isSome && stop.isSome then
    .error (.conflictingStopSequence conflictMsg)
  else
    .ok (assembleSync self payload stop kwargs)

/-- Request-building prefix of the asynchronous function (lines 84-112). -/
def buildRequestAsync (self : Ollama) (payload : Dict) (stop : Option (List String))
    (kwargs : Dict) : Except Err Dict :=
  if self.stop.isSome && stop.isSome then
    .error (.conflictingStopSequence conflictMsg)
  else
    .ok (assembleAsync self payload stop kwargs)

/-- Response handling of the synchronous function (lines 60-74): 404 raises
the endpoint error naming the model, any other non-200 raises a `ValueError`
carrying the status code and the body's `error` field, 200 returns the decoded
line iterator. -/
def handleResponseSync (self : Ollama) (response : Response) : Except Err (List String) :=
  if response.status ≠ 200 then
    if response.status = 404 then
      .error (.endpointNotFound (sync404Msg self.model))
    else
      .error (.requestFailed (failMsg response.status
        (pyShow (Dict.find response.jsonBody "error"))))
  else
    .ok response.bodyLines

/-- Response handling of the asynchronous function (lines 121-133).  On a
non-200, non-404 status, line 127 evaluates `await response.json().get("error")`:
`response.json()` is a coroutine object, so the `.get` attribute access raises
`AttributeError` before the `ValueError` on lines 128-131 is ever constructed.
On 200 the body's lines are yielded decoded. -/
def handleResponseAsync (response : Response) : Except Err (List String) :=
  if response.status ≠ 200 then
    if response.status = 404 then
      .error (.endpointNotFound async404Msg)
    else
      .error (.attributeError "coroutine object has no attribute get")
  else
    .ok response.bodyLines

/-- The patched synchronous `_create_stream` (lines 16-74).  The network is
modelled by the `response` argument: the response obtained by POSTing the
built body to `api_url`.  When the build prefix raises, the error is raised
before any request is issued, whatever the response would have been. -/
def _create_stream_patch (self : Ollama) (_api_url : String) (payload : Dict)
    (stop : Option (List String)) (kwargs : Dict) (response : Response) :
    Except Err (List String) :=
  match buildRequestSync self payload stop kwargs with
  | .error e => .error e
  | .ok _ => handleResponseSync self response

/-- The patched asynchronous `_acreate_stream` (lines 77-133), modelled the
same way. -/
def _acreate_stream_patch (self : Ollama) (_api_url : String) (payload : Dict)
    (stop : Option (List String)) (kwargs : Dict) (response : Response) :
    Except Err (List String) :=
  match buildRequestAsync self payload stop kwargs with
  | .error e => .error e
  | .ok _ => handleResponseAsync response

/-- Backend-configuration classes known to the plugin host: this adapter's
`LLMOllamaConfig` plus any other class, identified by name. -/
inductive LLMConfigClass where
  | LLMOllamaConfig : LLMConfigClass
  | other : String → LLMConfigClass
deriving DecidableEq

/-- The registration hook (lines 160-164): `allowed.append(LLMOllamaConfig)`
followed by `return allowed` — the input list with the adapter's configuration
class appended at the end.  The `cat` argument is unused by the hook. -/
def factory_allowed_llms (allowed : List LLMConfigClass) (_cat : Unit) :
    List LLMConfigClass :=
  allowed ++ [LLMConfigClass.LLMOllamaConfig]

/-- Value of the `model` key of the built request body: the keyword override
when present, the adapter default otherwise. -/
def modelValue (self : Ollama) (kwargs : Dict) : Value :=
  (Dict.find kwargs "model").getD (Value.str self.model)

/-- Value of the `options` key built by the synchronous path: the keyword
override verbatim when present, the merge of lines 36-40 otherwise. -/
def optionsValueSync (self : Ollama) (stop : Option (List String)) (kwargs : Dict) : Value :=
  match Dict.find kwargs "options" with
  | some v => v
  | none =>
    Value.obj (Dict.merge (Dict.insert self.default_options "stop"
      (optStopValue (effStopSync self.stop stop))) kwargs)

/-- Value of the `options` key built by the asynchronous path (lines 99-103). -/
def optionsValueAsync (self : Ollama) (stop : Option (List String)) (kwargs : Dict) : Value :=
  match Dict.find kwargs "options" with
  | some v => v
  | none =>
    Value.obj (Dict.merge (Dict.insert self.default_options "stop"
      (optStopValue (effStopAsync self.stop stop))) kwargs)

/-- Follows the claim's words, not the source: the options map that the spec
predicts when no explicit `options` override is supplied — adapter default
options merged with the stop entry merged with the remaining override keys,
where remaining means the keys not consumed as `model`. -/
def claimedOptionsSync (self : Ollama) (stop : Option (List String)) (kwargs : Dict) : Dict :=
  Dict.merge (Dict.insert self.default_options "stop"
    (optStopValue (effStopSync self.stop stop))) (Dict.erase kwargs "model")

/-! Helper lemmas about the dictionary operations and the two build prefixes. -/

lemma find_insert_self (d : Dict) (k : String) (v : Value) :
    Dict.find (Dict.insert d k v) k = some v := by
  induction d with
  | nil => simp [Dict.insert, Dict.find]
  | cons kv rest ih =>
    obtain ⟨k3, v3⟩ := kv
    by_cases h3 : k3 = k
    · subst h3; simp [Dict.insert, Dict.find]
    · simp [Dict.insert, Dict.find, h3, ih]

lemma find_insert_ne (d : Dict) (k2 k : String) (v : Value) (h : k2 ≠ k) :
    Dict.find (Dict.insert d k2 v) k = Dict.find d k := by
  induction d with
  | nil => simp [Dict.insert, Dict.find, h]
  | cons kv rest ih =>
    obtain ⟨k3, v3⟩ := kv
    by_cases h3 : k3 = k2
    · subst h3; simp [Dict.insert, Dict.find, h]
    · simp only [Dict.insert, Dict.find, if_neg h3]
      by_cases h4 : k3 = k
      · simp [Dict.find, h4]
      · simp [Dict.find, h4, ih]

lemma find_merge_right_none (b : Dict) : ∀ (a : Dict) (k : String),
    Dict.find b k = none → Dict.find (Dict.merge a b) k = Dict.find a k := by
  induction b with
  | nil => intro a k _; rfl
  | cons kv rest ih =>
    intro a k h
    obtain ⟨k2, v2⟩ := kv
    have hne : k2 ≠ k := by
      intro he
      subst he
      simp [Dict.find] at h
    have hrest : Dict.find rest k = none := by
      simpa [Dict.find, hne] using h
    calc Dict.find (Dict.merge a ((k2, v2) :: rest)) k
        = Dict.find (Dict.merge (Dict.insert a k2 v2) rest) k := rfl
      _ = Dict.find (Dict.insert a k2 v2) k := ih _ _ hrest
      _ = Dict.find a k := find_insert_ne _ _ _ _ hne

lemma buildSync_ok (self : Ollama) (payload : Dict) (stop : Option (List String))
    (kwargs : Dict) (hc : (self.stop.isSome && stop.isSome) = false) :
    buildRequestSync self payload stop kwargs = .ok (assembleSync self payload stop kwargs) := by
  simp [buildRequestSync, hc]

lemma buildAsync_ok (self : Ollama) (payload : Dict) (stop : Option (List String))
    (kwargs : Dict) (hc : (self.stop.isSome && stop.isSome) = false) :
    buildRequestAsync self payload stop kwargs = .ok (assembleAsync self payload stop kwargs) := by
  simp [buildRequestAsync, hc]

lemma buildSync_ok_inv (self : Ollama) (payload : Dict) (stop : Option (List String))
    (kwargs : Dict) (body : Dict)
    (hs : buildRequestSync self payload stop kwargs = .ok body) :
    (self.stop.isSome && stop.isSome) = false ∧ body = assembleSync self payload stop kwargs := by
  cases hc : (self.stop.isSome && stop.isSome) with
  | true => rw [buildRequestSync, hc] at hs; simp at hs
  | false =>
    rw [buildSync_ok self payload stop kwargs hc] at hs
    exact ⟨rfl, (Except.ok.inj hs).symm⟩

lemma buildAsync_ok_inv (self : Ollama) (payload : Dict) (stop : Option (List String))
    (kwargs : Dict) (body : Dict)
    (hs : buildRequestAsync self payload stop kwargs = .ok body) :
    (self.stop.isSome && stop.isSome) = false ∧ body = assembleAsync self payload stop kwargs := by
  cases hc : (self.stop.isSome && stop.isSome) with
  | true => rw [buildRequestAsync, hc] at hs; simp at hs
  | false =>
    rw [buildAsync_ok self payload stop kwargs hc] at hs
    exact ⟨rfl, (Except.ok.inj hs).symm⟩

lemma assembleSync_eq (self : Ollama) (payload : Dict) (stop : Option (List String))
    (kwargs : Dict) :
    assembleSync self payload stop kwargs =
      if ((Dict.find payload "messages").getD Value.null).truthy then
        [("messages", (Dict.find payload "messages").getD (Value.list [])),
         ("model", modelValue self kwargs),
         ("options", optionsValueSync self stop kwargs)]
      else
        [("prompt", (Dict.find payload "prompt").getD Value.null),
         ("images", (Dict.find payload "images").getD (Value.list [])),
         ("model", modelValue self kwargs),
         ("options", optionsValueSync self stop kwargs)] := by
  unfold assembleSync modelValue optionsValueSync Ollama.default_params
  cases hm : Dict.find kwargs "model" <;> cases ho : Dict.find kwargs "options" <;>
    cases htr : ((Dict.find payload "messages").getD Value.null).truthy <;>
      simp [hm, ho, htr, Dict.merge, Dict.insert]

lemma assembleAsync_eq (self : Ollama) (payload : Dict) (stop : Option (List String))
    (kwargs : Dict) :
    assembleAsync self payload stop kwargs =
      if ((Dict.find payload "messages").getD Value.null).truthy then
        [("messages", (Dict.find payload "messages").getD (Value.list [])),
         ("model", modelValue self kwargs),
         ("options", optionsValueAsync self stop kwargs)]
      else
        [("prompt", (Dict.find payload "prompt").getD Value.null),
         ("images", (Dict.find payload "images").getD (Value.list [])),
         ("model", modelValue self kwargs),
         ("options", optionsValueAsync self stop kwargs)] := by
  unfold assembleAsync modelValue optionsValueAsync Ollama.default_params
  cases hm : Dict.find kwargs "model" <;> cases ho : Dict.find kwargs "options" <;>
    cases htr : ((Dict.find payload "messages").getD Value.null).truthy <;>
      simp [hm, ho, htr, Dict.merge, Dict.insert]

lemma conflict_stream_all (self : Ollama) (api_url : String) (payload : Dict)
    (stop : Option (List String)) (kwargs : Dict) (response : Response)
    (hc : (self.stop.isSome && stop.isSome) = true) :
    buildRequestSync self payload stop kwargs = .error (.conflictingStopSequence conflictMsg) ∧
    buildRequestAsync self payload stop kwargs = .error (.conflictingStopSequence conflictMsg) ∧
    _create_stream_patch self api_url payload stop kwargs response =
      .error (.conflictingStopSequence conflictMsg) ∧
    _acreate_stream_patch self api_url payload stop kwargs response =
      .error (.conflictingStopSequence conflictMsg) := by
  have hbs : buildRequestSync self payload stop kwargs =
      .error (.conflictingStopSequence conflictMsg) := by
    rw [buildRequestSync, hc]; rfl
  have hba : buildRequestAsync self payload stop kwargs =
      .error (.conflictingStopSequence conflictMsg) := by
    rw [buildRequestAsync, hc]; rfl
  refine ⟨hbs, hba, ?_, ?_⟩
  · rw [_create_stream_patch, hbs]
  · rw [_acreate_stream_patch, hba]

lemma find_options_no_override_sync (self : Ollama) (payload : Dict)
    (stop : Option (List String)) (kwargs : Dict) (body : Dict)
    (hv : Dict.find kwargs "options" = none)
    (hs : buildRequestSync self payload stop kwargs = .ok body) :
    Dict.find body "options" =
      some (.obj (Dict.merge (Dict.insert self.default_options "stop"
        (optStopValue (effStopSync self.stop stop))) kwargs)) := by
  obtain ⟨-, rfl⟩ := buildSync_ok_inv self payload stop kwargs body hs
  rw [assembleSync_eq]
  cases htr : ((Dict.find payload "messages").getD Value.null).truthy <;>
    simp [Dict.find, optionsValueSync, hv]

lemma find_options_no_override_async (self : Ollama) (payload : Dict)
    (stop : Option (List String)) (kwargs : Dict) (body : Dict)
    (hv : Dict.find kwargs "options" = none)
    (hs : buildRequestAsync self payload stop kwargs = .ok body) :
    Dict.find body "options" =
      some (.obj (Dict.merge (Dict.insert self.default_options "stop"
        (optStopValue (effStopAsync self.stop stop))) kwargs)) := by
  obtain ⟨-, rfl⟩ := buildAsync_ok_inv self payload stop kwargs body hs
  rw [assembleAsync_eq]
  cases htr : ((Dict.find payload "messages").getD Value.null).truthy <;>
    simp [Dict.find, optionsValueAsync, hv]

lemma assembleSync_chat (self : Ollama) (payload : Dict) (stop : Option (List String))
    (kwargs : Dict) (ms : List Value)
    (hmsg : Dict.find payload "messages" = some (.list ms)) (hne : ms ≠ []) :
    assembleSync self payload stop kwargs =
      [("messages", Value.list ms), ("model", modelValue self kwargs),
       ("options", optionsValueSync self stop kwargs)] := by
  rw [assembleSync_eq, hmsg]
  cases ms with
  | nil => exact absurd rfl hne
  | cons m mrest => simp [Value.truthy]

lemma assembleAsync_chat (self : Ollama) (payload : Dict) (stop : Option (List String))
    (kwargs : Dict) (ms : List Value)
    (hmsg : Dict.find payload "messages" = some (.list ms)) (hne : ms ≠ []) :
    assembleAsync self payload stop kwargs =
      [("messages", Value.list ms), ("model", modelValue self kwargs),
       ("options", optionsValueAsync self stop kwargs)] := by
  rw [assembleAsync_eq, hmsg]
  cases ms with
  | nil => exact absurd rfl hne
  | cons m mrest => simp [Value.truthy]

lemma assembleSync_completion (self : Ollama) (payload : Dict) (stop : Option (List String))
    (kwargs : Dict)
    (h : Dict.find payload "messages" = none ∨ Dict.find payload "messages" = some (.list [])) :
    assembleSync self payload stop kwargs =
      [("prompt", (Dict.find payload "prompt").getD Value.null),
       ("images", (Dict.find payload "images").getD (Value.list [])),
       ("model", modelValue self kwargs),
       ("options", optionsValueSync self stop kwargs)] := by
  rw [assembleSync_eq]
  rcases h with h | h <;> simp [h, Value.truthy]

lemma assembleAsync_completion (self : Ollama) (payload : Dict) (stop : Option (List String))
    (kwargs : Dict)
    (h : Dict.find payload "messages" = none ∨ Dict.find payload "messages" = some (.list [])) :
    assembleAsync self payload stop kwargs =
      [("prompt", (Dict.find payload "prompt").getD Value.null),
       ("images", (Dict.find payload "images").getD (Value.list [])),
       ("model", modelValue self kwargs),
       ("options", optionsValueAsync self stop kwargs)] := by
  rw [assembleAsync_eq]
  rcases h with h | h <;> simp [h, Value.truthy]

/-! Claim theorems. -/

/-- C1: whenever the adapter's configured default stop list and the per-call
stop argument are both non-empty, both stream functions fail with the
stop-conflict error; the failure is independent of whatever the network would
have answered (the `response` argument is arbitrary), and the request-building
prefix itself already returns the error, so no request body is built. -/
theorem stop_conflict_blocks_request (self : Ollama) (api_url : String) (payload : Dict)
    (stop : Option (List String)) (kwargs : Dict) (response : Response)
    (l1 l2 : List String)
    (h1 : self.stop = some l1) (_hne1 : l1 ≠ []) (h2 : stop = some l2) (_hne2 : l2 ≠ []) :
    buildRequestSync self payload stop kwargs = .error (.conflictingStopSequence conflictMsg) ∧
    buildRequestAsync self payload stop kwargs = .error (.conflictingStopSequence conflictMsg) ∧
    _create_stream_patch self api_url payload stop kwargs response =
      .error (.conflictingStopSequence conflictMsg) ∧
    _acreate_stream_patch self api_url payload stop kwargs response =
      .error (.conflictingStopSequence conflictMsg) :=
  conflict_stream_all self api_url payload stop kwargs response (by rw [h1, h2]; rfl)

/-- Witness for C1 at a concrete conflicting call. -/
theorem stop_conflict_blocks_request_witness :
    _create_stream_patch ⟨some ["AAA"], "llama2", [], 60⟩ "u" [] (some ["BBB"]) []
        ⟨200, [], ["x"]⟩ = .error (.conflictingStopSequence conflictMsg) :=
  (stop_conflict_blocks_request ⟨some ["AAA"], "llama2", [], 60⟩ "u" [] (some ["BBB"]) []
    ⟨200, [], ["x"]⟩ ["AAA"] ["BBB"] rfl (by decide) rfl (by decide)).2.2.1

/-- C10: the stop-conflict check tests presence, not non-emptiness: whenever
both stop lists are present, even empty ones, both stream functions fail with
the conflict error. -/
theorem stop_conflict_presence_based (self : Ollama) (api_url : String) (payload : Dict)
    (stop : Option (List String)) (kwargs : Dict) (response : Response)
    (h1 : self.stop.isSome = true) (h2 : stop.isSome = true) :
    _create_stream_patch self api_url payload stop kwargs response =
      .error (.conflictingStopSequence conflictMsg) ∧
    _acreate_stream_patch self api_url payload stop kwargs response =
      .error (.conflictingStopSequence conflictMsg) :=
  let t := conflict_stream_all self api_url payload stop kwargs response (by rw [h1, h2]; rfl)
  ⟨t.2.2.1, t.2.2.2⟩

/-- Witness for C10: both stop lists present but empty still conflict. -/
theorem stop_conflict_presence_based_witness :
    _create_stream_patch ⟨some [], "llama2", [], 60⟩ "u" [] (some []) [] ⟨200, [], []⟩ =
      .error (.conflictingStopSequence conflictMsg) :=
  (stop_conflict_presence_based ⟨some [], "llama2", [], 60⟩ "u" [] (some []) [] ⟨200, [], []⟩
    rfl rfl).1

/-- C3: when the keyword overrides contain `options`, the `options` entry of
the built request body is exactly the supplied value, in both paths. -/
theorem explicit_options_override_exact (self : Ollama) (payload : Dict)
    (stop : Option (List String)) (kwargs : Dict) (v : Value) (body abody : Dict)
    (hv : Dict.find kwargs "options" = some v)
    (hs : buildRequestSync self payload stop kwargs = .ok body)
    (ha : buildRequestAsync self payload stop kwargs = .ok abody) :
    Dict.find body "options" = some v ∧ Dict.find abody "options" = some v := by
  obtain ⟨-, rfl⟩ := buildSync_ok_inv self payload stop kwargs body hs
  obtain ⟨-, rfl⟩ := buildAsync_ok_inv self payload stop kwargs abody ha
  rw [assembleSync_eq, assembleAsync_eq]
  constructor <;>
    cases htr : ((Dict.find payload "messages").getD Value.null).truthy <;>
      simp [Dict.find, optionsValueSync, optionsValueAsync, hv]

/-- Witness for C3 at a concrete call with an explicit `options` override. -/
theorem explicit_options_override_exact_witness :
    Dict.find (assembleSync ⟨none, "llama2", [("temperature", Value.num 8)], 60⟩ [] none
        [("options", Value.obj [("a", Value.num 1)])]) "options" =
      some (Value.obj [("a", Value.num 1)]) :=
  (explicit_options_override_exact ⟨none, "llama2", [("temperature", Value.num 8)], 60⟩ [] none
    [("options", Value.obj [("a", Value.num 1)])] (Value.obj [("a", Value.num 1)])
    (assembleSync ⟨none, "llama2", [("temperature", Value.num 8)], 60⟩ [] none
      [("options", Value.obj [("a", Value.num 1)])])
    (assembleAsync ⟨none, "llama2", [("temperature", Value.num 8)], 60⟩ [] none
      [("options", Value.obj [("a", Value.num 1)])]) rfl rfl rfl).1

/-- C4 counterexample: with override `{model: "mistral"}` and no `options`
override, the code merges the `model` key into the options map as well, while
the claimed options map (`claimedOptionsSync`, following the claim's words:
overrides minus the key consumed as `model`) has no `model` key. -/
theorem options_model_key_counterexample :
    buildRequestSync ⟨none, "llama2", [], 60⟩ [] none [("model", Value.str "mistral")] =
      .ok [("prompt", Value.null), ("images", Value.list []),
           ("model", Value.str "mistral"),
           ("options", Value.obj [("stop", Value.null), ("model", Value.str "mistral")])] ∧
    Dict.find [("stop", Value.null), ("model", Value.str "mistral")] "model" =
      some (Value.str "mistral") ∧
    Dict.find (claimedOptionsSync ⟨none, "llama2", [], 60⟩ none
      [("model", Value.str "mistral")]) "model" = none :=
  ⟨rfl, rfl, rfl⟩

/-- C4 amended: when the keyword overrides omit `options`, the `options` entry
of the built body equals the adapter default options merged with the stop
entry merged with ALL override keys — the `model` override, when present, is
merged into the options map too, overrides winning on conflict. -/
theorem options_merge_all_overrides_amended (self : Ollama) (payload : Dict)
    (stop : Option (List String)) (kwargs : Dict) (body abody : Dict)
    (hv : Dict.find kwargs "options" = none)
    (hs : buildRequestSync self payload stop kwargs = .ok body)
    (ha : buildRequestAsync self payload stop kwargs = .ok abody) :
    Dict.find body "options" =
      some (.obj (Dict.merge (Dict.insert self.default_options "stop"
        (optStopValue (effStopSync self.stop stop))) kwargs)) ∧
    Dict.find abody "options" =
      some (.obj (Dict.merge (Dict.insert self.default_options "stop"
        (optStopValue (effStopAsync self.stop stop))) kwargs)) :=
  ⟨find_options_no_override_sync self payload stop kwargs body hv hs,
   find_options_no_override_async self payload stop kwargs abody hv ha⟩

/-- Witness for the amended C4 at a concrete call. -/
theorem options_merge_all_overrides_amended_witness :
    Dict.find (assembleSync ⟨none, "llama2", [("seed", Value.num 1)], 60⟩ [] none
        [("temperature", Value.num 5)]) "options" =
      some (.obj (Dict.merge (Dict.insert [("seed", Value.num 1)] "stop"
        (optStopValue (effStopSync none none))) [("temperature", Value.num 5)])) :=
  (options_merge_all_overrides_amended ⟨none, "llama2", [("seed", Value.num 1)], 60⟩ [] none
    [("temperature", Value.num 5)]
    (assembleSync ⟨none, "llama2", [("seed", Value.num 1)], 60⟩ [] none
      [("temperature", Value.num 5)])
    (assembleAsync ⟨none, "llama2", [("seed", Value.num 1)], 60⟩ [] none
      [("temperature", Value.num 5)]) rfl rfl rfl).1

/-- C5 counterexample: with no stop list anywhere and no `options` override,
the synchronous path still puts a `stop` key into the options map, bound to
JSON null — the options map does not omit the key. -/
theorem sync_stop_key_counterexample :
    buildRequestSync ⟨none, "llama2", [("temperature", Value.num 8)], 300⟩
        [("prompt", Value.str "hi")] none [] =
      .ok [("prompt", Value.str "hi"), ("images", Value.list []),
           ("model", Value.str "llama2"),
           ("options", Value.obj [("temperature", Value.num 8), ("stop", Value.null)])] ∧
    Dict.find [("temperature", Value.num 8), ("stop", Value.null)] "stop" = some Value.null :=
  ⟨rfl, rfl⟩

/-- C5 amended: when neither stop list is given and `options` is not
overridden, the synchronous path sends an options map whose `stop` entry is
JSON null (the key is present), while the asynchronous path sends one whose
`stop` entry is the empty list.  The hypothesis on `kwargs` records that
Python binds the named `stop` parameter, so the keyword overrides can never
carry a `stop` key of their own. -/
theorem missing_stop_asymmetry_amended (self : Ollama) (payload : Dict) (kwargs : Dict)
    (body abody : Dict)
    (h1 : self.stop = none)
    (hk : Dict.find kwargs "stop" = none)
    (hv : Dict.find kwargs "options" = none)
    (hs : buildRequestSync self payload none kwargs = .ok body)
    (ha : buildRequestAsync self payload none kwargs = .ok abody) :
    Dict.find body "options" =
      some (.obj (Dict.merge (Dict.insert self.default_options "stop" Value.null) kwargs)) ∧
    Dict.find (Dict.merge (Dict.insert self.default_options "stop" Value.null) kwargs) "stop" =
      some Value.null ∧
    Dict.find abody "options" =
      some (.obj (Dict.merge (Dict.insert self.default_options "stop" (Value.list [])) kwargs)) ∧
    Dict.find (Dict.merge (Dict.insert self.default_options "stop" (Value.list [])) kwargs)
      "stop" = some (Value.list []) := by
  have h2 := find_options_no_override_sync self payload none kwargs body hv hs
  have h3 := find_options_no_override_async self payload none kwargs abody hv ha
  rw [h1] at h2 h3
  refine ⟨?_, ?_, ?_, ?_⟩
  · simpa [effStopSync, optStopValue] using h2
  · rw [find_merge_right_none kwargs _ _ hk, find_insert_self]
  · simpa [effStopAsync, optStopValue] using h3
  · rw [find_merge_right_none kwargs _ _ hk, find_insert_self]

/-- Witness for the amended C5 at a concrete call. -/
theorem missing_stop_asymmetry_amended_witness :
    Dict.find (assembleSync ⟨none, "llama2", [("temperature", Value.num 8)], 300⟩
        [("prompt", Value.str "hi")] none []) "options" =
      some (.obj (Dict.merge (Dict.insert [("temperature", Value.num 8)] "stop"
        Value.null) [])) ∧
    Dict.find (assembleAsync ⟨none, "llama2", [("temperature", Value.num 8)], 300⟩
        [("prompt", Value.str "hi")] none []) "options" =
      some (.obj (Dict.merge (Dict.insert [("temperature", Value.num 8)] "stop"
        (Value.list [])) [])) :=
  let t := missing_stop_asymmetry_amended ⟨none, "llama2", [("temperature", Value.num 8)], 300⟩
    [("prompt", Value.str "hi")] []
    (assembleSync ⟨none, "llama2", [("temperature", Value.num 8)], 300⟩
      [("prompt", Value.str "hi")] none [])
    (assembleAsync ⟨none, "llama2", [("temperature", Value.num 8)], 300⟩
      [("prompt", Value.str "hi")] none []) rfl rfl rfl rfl rfl
  ⟨t.1, t.2.2.1⟩

/-- C2: both stream functions build the request body by the tagging rule.
When the payload's `messages` entry is a non-empty list, the body carries a
`messages` key and neither `prompt` nor `images`; when `messages` is absent or
the empty list, the body carries `prompt` and `images` (with `images`
defaulting to the empty list when the payload has none) and no `messages`
key. -/
theorem payload_tagging_rule (self : Ollama) (payload : Dict) (stop : Option (List String))
    (kwargs : Dict) (body abody : Dict)
    (hs : buildRequestSync self payload stop kwargs = .ok body)
    (ha : buildRequestAsync self payload stop kwargs = .ok abody) :
    (∀ ms : List Value, Dict.find payload "messages" = some (.list ms) → ms ≠ [] →
      ((Dict.find body "messages").isSome ∧ Dict.find body "prompt" = none ∧
        Dict.find body "images" = none) ∧
      ((Dict.find abody "messages").isSome ∧ Dict.find abody "prompt" = none ∧
        Dict.find abody "images" = none)) ∧
    ((Dict.find payload "messages" = none ∨ Dict.find payload "messages" = some (.list [])) →
      ((Dict.find body "prompt").isSome ∧ (Dict.find body "images").isSome ∧
        Dict.find body "messages" = none ∧
        (Dict.find payload "images" = none → Dict.find body "images" = some (.list []))) ∧
      ((Dict.find abody "prompt").isSome ∧ (Dict.find abody "images").isSome ∧
        Dict.find abody "messages" = none ∧
        (Dict.find payload "images" = none → Dict.find abody "images" = some (.list [])))) := by
  obtain ⟨-, rfl⟩ := buildSync_ok_inv self payload stop kwargs body hs
  obtain ⟨-, rfl⟩ := buildAsync_ok_inv self payload stop kwargs abody ha
  constructor
  · intro ms hmsg hne
    rw [assembleSync_chat self payload stop kwargs ms hmsg hne,
        assembleAsync_chat self payload stop kwargs ms hmsg hne]
    refine ⟨⟨?_, ?_, ?_⟩, ⟨?_, ?_, ?_⟩⟩ <;> simp [Dict.find]
  · intro hcase
    rw [assembleSync_completion self payload stop kwargs hcase,
        assembleAsync_completion self payload stop kwargs hcase]
    refine ⟨⟨?_, ?_, ?_, ?_⟩, ⟨?_, ?_, ?_, ?_⟩⟩
    · simp [Dict.find]
    · simp [Dict.find]
    · simp [Dict.find]
    · intro himg; simp [Dict.find, himg]
    · simp [Dict.find]
    · simp [Dict.find]
    · simp [Dict.find]
    · intro himg; simp [Dict.find, himg]

/-- Witness for C2: a chat payload produces a body without a `prompt` key. -/
theorem payload_tagging_rule_witness :
    Dict.find (assembleSync ⟨none, "llama2", [], 60⟩
        [("messages", Value.list [Value.str "hi"])] none []) "prompt" = none :=
  ((payload_tagging_rule ⟨none, "llama2", [], 60⟩
      [("messages", Value.list [Value.str "hi"])] none []
      (assembleSync ⟨none, "llama2", [], 60⟩ [("messages", Value.list [Value.str "hi"])] none [])
      (assembleAsync ⟨none, "llama2", [], 60⟩ [("messages", Value.list [Value.str "hi"])] none [])
      rfl rfl).1 [Value.str "hi"] rfl (List.cons_ne_nil _ _)).1.2.1

/-- C6: the claim holds on the synchronous path — a non-200, non-404 response
raises the request failure whose detail carries the status code and the
body's `error` field — but on the asynchronous path line 127 accesses `.get`
on the coroutine returned by `response.json()` without awaiting it, so a 500
response with body containing error "boom" raises `AttributeError` instead of
the request-failure error: the code contradicts the spec's clear intent. -/
theorem async_error_detail_attribute_error :
    _create_stream_patch ⟨none, "llama2", [], 60⟩ "u" [] none []
        ⟨500, [("error", Value.str "boom")], []⟩ =
      .error (.requestFailed "Ollama call failed with status code 500. Details: boom") ∧
    strContains "Ollama call failed with status code 500. Details: boom" "500" = true ∧
    strContains "Ollama call failed with status code 500. Details: boom" "boom" = true ∧
    _acreate_stream_patch ⟨none, "llama2", [], 60⟩ "u" [] none []
        ⟨500, [("error", Value.str "boom")], []⟩ =
      .error (.attributeError "coroutine object has no attribute get") :=
  ⟨rfl, rfl, rfl, rfl⟩

/-- C7 counterexample: on a 404 the asynchronous function raises the
endpoint-not-found error, but its message is only the status line — it
mentions neither pulling nor the configured model name, against the claim
that both paths suggest the model may not be pulled. -/
theorem async_404_message_counterexample :
    _acreate_stream_patch ⟨none, "llama2", [], 60⟩ "u" [] none [] ⟨404, [], []⟩ =
      .error (.endpointNotFound "Ollama call failed with status code 404.") ∧
    strContains "Ollama call failed with status code 404." "pull" = false ∧
    strContains "Ollama call failed with status code 404." "llama2" = false :=
  ⟨rfl, rfl, rfl⟩

/-- C7 amended: on a 404 both stream functions fail with the
endpoint-not-found error; the synchronous message names the model and
suggests pulling it, while the asynchronous message carries only the status
code, with no such suggestion. -/
theorem status_404_amended (self : Ollama) (api_url : String) (payload : Dict)
    (stop : Option (List String)) (kwargs : Dict) (response : Response)
    (hc : (self.stop.isSome && stop.isSome) = false)
    (h404 : response.status = 404) :
    _create_stream_patch self api_url payload stop kwargs response =
      .error (.endpointNotFound (sync404Msg self.model)) ∧
    _acreate_stream_patch self api_url payload stop kwargs response =
      .error (.endpointNotFound async404Msg) := by
  simp [_create_stream_patch, _acreate_stream_patch, buildSync_ok _ _ _ _ hc,
        buildAsync_ok _ _ _ _ hc, handleResponseSync, handleResponseAsync, h404]

/-- Witness for the amended C7, checking the sync message does suggest pulling. -/
theorem status_404_amended_witness :
    _create_stream_patch ⟨none, "llama2", [], 60⟩ "u" [] none [] ⟨404, [], []⟩ =
      .error (.endpointNotFound (sync404Msg "llama2")) ∧
    strContains (sync404Msg "llama2") "pull" = true ∧
    strContains (sync404Msg "llama2") "llama2" = true :=
  ⟨(status_404_amended ⟨none, "llama2", [], 60⟩ "u" [] none [] ⟨404, [], []⟩ rfl rfl).1,
   rfl, rfl⟩

/-- C8: on a 200 response both stream functions deliver exactly the decoded
lines of the response body, in order, nothing added, dropped or reordered. -/
theorem status_200_yields_lines (self : Ollama) (api_url : String) (payload : Dict)
    (stop : Option (List String)) (kwargs : Dict) (response : Response)
    (hc : (self.stop.isSome && stop.isSome) = false)
    (h200 : response.status = 200) :
    _create_stream_patch self api_url payload stop kwargs response = .ok response.bodyLines ∧
    _acreate_stream_patch self api_url payload stop kwargs response = .ok response.bodyLines := by
  simp [_create_stream_patch, _acreate_stream_patch, buildSync_ok _ _ _ _ hc,
        buildAsync_ok _ _ _ _ hc, handleResponseSync, handleResponseAsync, h200]

/-- Witness for C8 with a two-line body. -/
theorem status_200_yields_lines_witness :
    _create_stream_patch ⟨none, "llama2", [], 60⟩ "u" [] none []
        ⟨200, [], ["a1", "a2"]⟩ = .ok ["a1", "a2"] :=
  (status_200_yields_lines ⟨none, "llama2", [], 60⟩ "u" [] none [] ⟨200, [], ["a1", "a2"]⟩
    rfl rfl).1

/-- C9: the registration hook returns the input list of allowed
backend-configuration classes with `LLMOllamaConfig` appended at the end — the
original prefix is preserved unchanged, the last element is the adapter's
configuration class, and the length grows by exactly one. -/
theorem factory_allowed_llms_appends (allowed : List LLMConfigClass) (cat : Unit) :
    (factory_allowed_llms allowed cat).take allowed.length = allowed ∧
    (factory_allowed_llms allowed cat).getLast? = some LLMConfigClass.LLMOllamaConfig ∧
    (factory_allowed_llms allowed cat).length = allowed.length + 1 := by
  refine ⟨?_, ?_, ?_⟩
  · simp [factory_allowed_llms, List.take_left]
  · simp [factory_allowed_llms]
  · simp [factory_allowed_llms]

end OllamaFix
